import Mathlib

/-!
Shallow embedding of the device layer of the `microscope` package
(`microscope/devices.py`), with proofs about the lifecycle state machine,
the settings registry, and the acquisition engine (fetch loop, dispatch
loop, client stack).

Conventions of the embedding:
* Exceptions are modelled with `Except`, error objects and payloads with
  `Nat` codes.
* The tri-state `Device.enabled` attribute (`None`/`True`/`False`) is an
  `Option Bool`.
* A `Setting`'s getter and setter are modelled as reading and writing a
  per-setting hardware value cell; `hasSetter` records whether a set
  function is registered (`Setting._set is not None`), `readonly` the
  resolved read-only flag.
* Dictionaries keyed by strings are association lists.
-/

namespace Microscope

/-- One registered setting of a device, as seen by `update_settings`:
its current hardware value (read by the getter, written by the setter),
whether `Setting._set` is registered, and its read-only flag. -/
structure SettingM where
  value : Int
  hasSetter : Bool
  readonly : Bool
  deriving DecidableEq, Repr

/-- Python exceptions that the settings code can raise:
`Exception('update_settings init=True but missing keys: ...')`,
`KeyError` from a dict subscript, and `NotImplementedError` from
`Setting.set` when no set function is registered. -/
inductive PyErr where
  | missingKeys (ks : List String)
  | keyError
  | notImplementedError
  deriving DecidableEq, Repr

/-- An entry of the `results` dict built by `Device.update_settings`:
either the `NotImplemented` marker or a value read back from a getter.
`readbackMissing` marks the (unreachable) read-back of a key that is not
in `self.settings`, where Python would raise `KeyError`. -/
inductive UpdateResult where
  | notImplemented
  | value (v : Int)
  | readbackMissing
  deriving DecidableEq, Repr

/-- Dictionary subscript `d[key]` on a string-keyed association list. -/
def lookupA {β : Type} : List (String × β) → String → Option β
  | [], _ => none
  | (k, b) :: rest, key => if k = key then some b else lookupA rest key

/-- Write `v` into the value cell of setting `key` (the effect of
`self.settings[key].set(incoming[key])` on the hardware state). -/
def setValueS : List (String × SettingM) → String → Int → List (String × SettingM)
  | [], _, _ => []
  | (k, s) :: rest, key, v =>
    if k = key then (k, { s with value := v }) :: rest
    else (k, s) :: setValueS rest key v

/-- `Device.get_setting(key)`: the getter's view of the current value. -/
def getVal (ss : List (String × SettingM)) (k : String) : Option Int :=
  (lookupA ss k).map (fun s => s.value)

/-- The first loop of `Device.update_settings` (devices.py lines 349-358),
iterating over `update_keys`.  Per key:
* `if key not in my_keys or not self.settings[key].set:` — the second
  disjunct is always false in the source (`.set` is a bound method and
  hence truthy), so the branch fires only for a key absent from
  `self.settings`; it stores `NotImplemented` in `results` and removes the
  key from the read-back set.  (It is dead code: `update_keys` is always a
  subset of `my_keys`.)
* a read-only key is skipped (`continue`) but stays in the read-back set;
* otherwise `self.settings[key].set(incoming[key])` runs: the subscript
  `incoming[key]` is evaluated first (`KeyError` if absent), then
  `Setting.set` raises `NotImplementedError` when no set function is
  registered, else the value is written.
Returns the updated settings, the `NotImplemented` entries of `results`,
and the keys remaining for the read-back loop. -/
def writePhase (incoming : List (String × Int)) :
    List String → List (String × SettingM) →
    Except PyErr (List (String × SettingM) × List (String × UpdateResult) × List String)
  | [], ss => .ok (ss, [], [])
  | key :: rest, ss =>
    match lookupA ss key with
    | none =>
      match writePhase incoming rest ss with
      | .error e => .error e
      | .ok (ss', res, kept) => .ok (ss', (key, UpdateResult.notImplemented) :: res, kept)
    | some s =>
      if s.readonly then
        match writePhase incoming rest ss with
        | .error e => .error e
        | .ok (ss', res, kept) => .ok (ss', res, key :: kept)
      else
        match lookupA incoming key with
        | none => .error PyErr.keyError
        | some v =>
          if s.hasSetter then
            match writePhase incoming rest (setValueS ss key v) with
            | .error e => .error e
            | .ok (ss', res, kept) => .ok (ss', res, key :: kept)
          else .error PyErr.notImplementedError

/-- The second loop of `Device.update_settings` (lines 359-361):
`results[key] = self.settings[key].get()` for every key still in
`update_keys`. -/
def readPhase (keys : List String) (ss : List (String × SettingM)) :
    List (String × UpdateResult) :=
  keys.map fun k =>
    match lookupA ss k with
    | some s => (k, UpdateResult.value s.value)
    | none => (k, UpdateResult.readbackMissing)

/-- Write loop followed by read-back loop, assembling the `results` dict. -/
def runPhases (ss : List (String × SettingM)) (incoming : List (String × Int))
    (updateKeys : List String) :
    Except PyErr (List (String × SettingM) × List (String × UpdateResult)) :=
  match writePhase incoming updateKeys ss with
  | .error e => .error e
  | .ok (ss', niRes, kept) => .ok (ss', niRes ++ readPhase kept ss')

/-- `Device.update_settings(incoming, init)` (devices.py lines 330-362).
With `init=True`, `update_keys = my_keys & their_keys` and the call raises
`Exception` listing `my_keys - their_keys` unless `update_keys == my_keys`
(that is, unless the incoming keys are a superset of the registered keys).
With `init=False`, `update_keys` holds the recognised keys whose current
getter value differs from the incoming value.  Then the write and
read-back loops run. -/
def updateSettings (ss : List (String × SettingM)) (incoming : List (String × Int))
    (init : Bool) :
    Except PyErr (List (String × SettingM) × List (String × UpdateResult)) :=
  if init then
    if (ss.map Prod.fst).all (fun k => decide (k ∈ incoming.map Prod.fst)) then
      runPhases ss incoming
        ((ss.map Prod.fst).filter (fun k => decide (k ∈ incoming.map Prod.fst)))
    else
      .error (PyErr.missingKeys
        ((ss.map Prod.fst).filter (fun k => decide (k ∉ incoming.map Prod.fst))))
  else
    runPhases ss incoming
      ((ss.map Prod.fst).filter
        (fun k => decide (k ∈ incoming.map Prod.fst)
          && decide (getVal ss k ≠ lookupA incoming k)))

/-- `DataDevice.update_settings(settings, init)` (devices.py lines 600-603):
it calls `super().update_settings(settings, init)` but its body has no
return statement, so the base-class result dict is discarded and the
method returns `None` (modelled as `none`). -/
def dataDeviceUpdateSettings (ss : List (String × SettingM))
    (incoming : List (String × Int)) (init : Bool) :
    Except PyErr (List (String × SettingM) × Option (List (String × UpdateResult))) :=
  match updateSettings ss incoming init with
  | .error e => .error e
  | .ok (ss', _results) => .ok (ss', none)

/-- The mutable attributes of a device that the lifecycle and acquisition
claims observe: the tri-state `enabled` flag (`None` before the first
enable), the `_acquiring` flag of a `DataDevice`, and the settings
registry. -/
structure DevState where
  enabled : Option Bool
  acquiring : Bool
  settings : List (String × SettingM)
  deriving DecidableEq, Repr

/-- `Device.enable` (devices.py lines 240-245): `self.enabled` is assigned
the hook's return value; if `_on_enable` raises, the error is logged and
swallowed and `self.enabled` keeps its previous value.  The method body
has no return statement, so the caller always receives `None` (the second
component is always `none`: no success flag is returned). -/
def deviceEnable (hook : Except Nat Bool) (st : DevState) : DevState × Option Bool :=
  match hook with
  | .ok b => ({ st with enabled := some b }, none)
  | .error _ => (st, none)

/-- `DataDevice.enable` (devices.py lines 430-461), after the data-handling
threads are started: `result = self._on_enable()` runs under `try`; if it
raises, the error is logged, `self.enabled` is set to `False` and the
exception is re-raised (`raise err`); otherwise `self.enabled` is set to
`True` when the result is truthy and `False` when it is falsy, and
`self.enabled` is returned. -/
def dataDeviceEnable (hook : Except Nat Bool) (st : DevState) : DevState × Except Nat Bool :=
  match hook with
  | .error e => ({ st with enabled := some false }, .error e)
  | .ok r =>
    if r then ({ st with enabled := some true }, .ok true)
    else ({ st with enabled := some false }, .ok false)

/-- Observable events of a `disable()` call, in chronological order. -/
inductive DisEvent where
  | onDisable
  | setEnabledFalse
  | stopFetch
  deriving DecidableEq, Repr

/-- `Device.disable` (devices.py lines 227-230): run the `_on_disable`
hook, then assign `self.enabled = False`.  The base hook just returns
`True`, so the only state change is the flag. -/
def deviceDisable (st : DevState) : DevState × List DisEvent :=
  ({ st with enabled := some false }, [DisEvent.onDisable, DisEvent.setEnabledFalse])

/-- `DataDevice.disable` (devices.py lines 464-473): first assigns
`self.enabled = False`, then stops and joins the fetch thread, then calls
`super().disable()` (hook, then the flag again). -/
def dataDeviceDisable (st : DevState) : DevState × List DisEvent :=
  let st1 := { st with enabled := some false }
  let r := deviceDisable st1
  (r.1, DisEvent.setEnabledFalse :: DisEvent.stopFetch :: r.2)

/-- `Device.make_safe` (devices.py lines 264-266): the body is `pass`, a
no-op in every state.  `DataDevice` does not override it. -/
def deviceMakeSafe (st : DevState) : DevState := st

/-- `TemplateCamera.make_safe` (doc/camera-template.py lines 106-113):
`if self._acquiring: self.abort()`, where `abort` assigns
`self._acquiring = False`.  The `enabled` flag is never consulted or
changed. -/
def templateMakeSafe (st : DevState) : DevState :=
  if st.acquiring then { st with acquiring := false } else st

/-- `abort()` as implemented by data devices (devices.py lines 425-428,
doc/camera-template.py lines 90-96): assigns `self._acquiring = False`. -/
def abortOp (st : DevState) : DevState := { st with acquiring := false }

/-- Observable events of a wrapped settings mutation, in chronological
order: the `abort()` call, the wrapped function's own work, and the
`_on_enable()` re-run. -/
inductive AcqEvent where
  | abortEv
  | setterEv
  | onEnableEv
  deriving DecidableEq, Repr

/-- The `keep_acquiring` decorator (devices.py lines 365-376): if
`self._acquiring`, call `self.abort()`, run the wrapped function, then
call `self._on_enable()`; otherwise run the wrapped function directly.
`f` is the wrapped function's state effect and `hook` the device's
`_on_enable` effect; the returned list is the chronological event trace. -/
def keepAcquiring (f : DevState → DevState) (hook : DevState → DevState)
    (st : DevState) : DevState × List AcqEvent :=
  if st.acquiring then
    (hook (f (abortOp st)), [AcqEvent.abortEv, AcqEvent.setterEv, AcqEvent.onEnableEv])
  else
    (f st, [AcqEvent.setterEv])

/-- The state effect of `Device.set_setting(key, value)` on the success
path: `self.settings[key].set(value)` writes the setting's value cell.
(A missing key or missing setter raises instead; claim C4 is about the
successful mutation.) -/
def setSettingOp (key : String) (v : Int) (st : DevState) : DevState :=
  { st with settings := setValueS st.settings key v }

/-- `DataDevice.set_setting = keep_acquiring(Device.set_setting)`
(devices.py lines 422-423). -/
def dataDeviceSetSetting (key : String) (v : Int) (hook : DevState → DevState)
    (st : DevState) : DevState × List AcqEvent :=
  keepAcquiring (setSettingOp key v) hook st

/-- One iteration's outcome of `self._fetch_data()` inside `_fetch_loop`:
it returns data, returns `None`, or raises. -/
inductive FetchOutcome where
  | ok (d : Nat)
  | noData
  | raises (e : Nat)
  deriving DecidableEq, Repr

/-- A payload placed into the dispatch buffer by `_fetch_loop`: either
normal data or the raised error object itself. -/
inductive Payload where
  | data (d : Nat)
  | error (e : Nat)
  deriving DecidableEq, Repr

/-- What a single `_fetch_data` outcome contributes to the dispatch
buffer: data puts a data payload, `None` puts nothing, an exception puts
the error object itself. -/
def payloadOf : FetchOutcome → Option Payload
  | .ok d => some (Payload.data d)
  | .noData => none
  | .raises e => some (Payload.error e)

/-- `DataDevice._fetch_loop` (devices.py lines 531-550), run over a finite
sequence of `_fetch_data` outcomes while `_fetch_thread_run` stays true:
if the hook raises, the error is logged and the exception object is
enqueued via `self._put(e, timestamp)` and the loop continues with the
next iteration; if it returns data, the data is enqueued; if it returns
`None`, the loop just sleeps.  The result is the FIFO content of the
dispatch buffer. -/
def fetchLoop : List FetchOutcome → List Payload
  | [] => []
  | o :: rest =>
    match o with
    | .ok d => Payload.data d :: fetchLoop rest
    | .noData => fetchLoop rest
    | .raises e => Payload.error e :: fetchLoop rest

/-- The client-facing state of the acquisition engine: the ordered
`_clientStack` and the `_liveClients` set (clients are `Nat` handles). -/
structure CState where
  clientStack : List Nat
  liveClients : Finset Nat
  deriving DecidableEq

/-- The transport-level outcome of `client.receiveData(...)` inside
`_send_data`: success, one of the two Pyro connection failures
(`ConnectionClosedError`, `CommunicationError`), or any other
exception. -/
inductive SendOutcome where
  | success
  | connClosed
  | commError
  | otherError (e : Nat)
  deriving DecidableEq, Repr

/-- The client-pruning performed by `_send_data` on a connection failure
(devices.py lines 499-503): `self._clientStack = list(filter(client.__ne__,
self._clientStack))` and `self._liveClients =
self._liveClients.difference([client])`. -/
def pruneClient (st : CState) (c : Nat) : CState :=
  { clientStack := st.clientStack.filter (fun x => decide (x ≠ c)),
    liveClients := st.liveClients.erase c }

/-- `DataDevice._send_data(client, ...)` (devices.py lines 492-505): on a
Pyro connection failure the client is pruned from the stack and the live
set and the exception is swallowed; any other exception is re-raised
(`except: raise`). -/
def sendData (st : CState) (c : Nat) (out : SendOutcome) : CState × Except Nat Unit :=
  match out with
  | .success => (st, .ok ())
  | .connClosed => (pruneClient st c, .ok ())
  | .commError => (pruneClient st c, .ok ())
  | .otherError e => (st, .error e)

/-- One iteration of `DataDevice._dispatch_loop` (devices.py lines
507-529) on a dequeued item addressed to client `c`: if `c` is not in
`_liveClients` the item is dropped (`continue`) with no delivery attempt;
otherwise `_send_data` runs (for both data and error payloads), and an
exception escaping it is caught and logged so the loop survives.  The
boolean records whether a delivery was attempted. -/
def dispatchStep (st : CState) (c : Nat) (out : SendOutcome) : CState × Bool :=
  if c ∈ st.liveClients then
    match sendData st c out with
    | (st', .ok _) => (st', true)
    | (st', .error _) => (st', true)
  else (st, false)

/-- The dispatch loop over a finite queue of items: every dequeued item is
processed in order and the loop never terminates early. -/
def dispatchLoop (st : CState) : List (Nat × SendOutcome) → CState × List Bool
  | [] => (st, [])
  | (c, out) :: rest =>
    let p := dispatchStep st c out
    let q := dispatchLoop p.1 rest
    (q.1, p.2 :: q.2)

/-- A completed mutation of the client stack: a push or a pop through the
`_client` property setter (devices.py lines 557-564), or the dead-client
pruning of `_send_data`. -/
inductive COp where
  | push (c : Nat)
  | pop
  | prune (c : Nat)
  deriving DecidableEq, Repr

/-- Apply one client-stack mutation.  The `_client` setter appends or pops
on `_clientStack` and then recomputes `self._liveClients =
set(self._clientStack)`; a pop on an empty stack raises `IndexError`
(`none`: the mutation does not complete).  `prune` is `_send_data`'s
removal. -/
def applyOp (st : CState) : COp → Option CState
  | .push c =>
    let stack := st.clientStack ++ [c]
    some ⟨stack, stack.toFinset⟩
  | .pop =>
    match st.clientStack with
    | [] => none
    | _ :: _ =>
      let stack := st.clientStack.dropLast
      some ⟨stack, stack.toFinset⟩
  | .prune c => some (pruneClient st c)

/-- The invariant relating the two client containers: `_liveClients` is
exactly the set of handles currently on `_clientStack`. -/
def clientInv (st : CState) : Prop :=
  st.liveClients = st.clientStack.toFinset

/-- Run a sequence of mutations from the freshly-constructed state
(`_clientStack = []`, `_liveClients = set()`); a mutation that raises
(pop on empty) leaves the state unchanged. -/
def runOps (ops : List COp) : CState :=
  ops.foldl (fun st op => (applyOp st op).getD st) ⟨[], ∅⟩

/-! ## Helper lemmas -/

lemma fetchLoop_eq_filterMap (outs : List FetchOutcome) :
    fetchLoop outs = outs.filterMap payloadOf := by
  induction outs with
  | nil => rfl
  | cons o rest ih =>
    cases o <;> simp [fetchLoop, payloadOf, List.filterMap_cons, ih]

lemma fetchLoop_append (xs ys : List FetchOutcome) :
    fetchLoop (xs ++ ys) = fetchLoop xs ++ fetchLoop ys := by
  induction xs with
  | nil => rfl
  | cons o rest ih =>
    cases o <;> simp [fetchLoop, ih]

lemma lookupA_mem {β : Type} :
    ∀ (ps : List (String × β)) (k : String) (b : β),
      lookupA ps k = some b → (k, b) ∈ ps := by
  intro ps
  induction ps with
  | nil => intro k b h; simp [lookupA] at h
  | cons p rest ih =>
    intro k b h
    obtain ⟨k1, b1⟩ := p
    by_cases hk : k1 = k
    · subst hk
      simp [lookupA] at h
      subst h
      exact List.mem_cons_self _ _
    · simp [lookupA, hk] at h
      exact List.mem_cons_of_mem _ (ih k b h)

lemma mem_keys_lookupA {β : Type} :
    ∀ (ps : List (String × β)) (k : String),
      k ∈ ps.map Prod.fst → ∃ b, lookupA ps k = some b := by
  intro ps
  induction ps with
  | nil => intro k h; simp at h
  | cons p rest ih =>
    intro k h
    obtain ⟨k1, b1⟩ := p
    rw [List.map_cons, List.mem_cons] at h
    by_cases hk : k1 = k
    · exact ⟨b1, by simp [lookupA, hk]⟩
    · have hr : k ∈ rest.map Prod.fst := by
        rcases h with h1 | h1
        · exact absurd h1.symm hk
        · exact h1
      obtain ⟨b, hb⟩ := ih k hr
      exact ⟨b, by simp [lookupA, hk, hb]⟩

lemma lookupA_setValueS_self (ss : List (String × SettingM)) (k : String) (v : Int) :
    lookupA (setValueS ss k v) k
      = (lookupA ss k).map (fun s => { s with value := v }) := by
  induction ss with
  | nil => rfl
  | cons p rest ih =>
    obtain ⟨k1, s1⟩ := p
    by_cases h : k1 = k
    · subst h
      simp [setValueS, lookupA]
    · simp [setValueS, lookupA, h, ih]

lemma lookupA_setValueS_ne (ss : List (String × SettingM)) (k k' : String) (v : Int)
    (hne : k' ≠ k) :
    lookupA (setValueS ss k v) k' = lookupA ss k' := by
  induction ss with
  | nil => rfl
  | cons p rest ih =>
    obtain ⟨k1, s1⟩ := p
    by_cases h : k1 = k
    · subst h
      have hne' : ¬ (k1 = k') := fun hc => hne hc.symm
      simp [setValueS, lookupA, hne']
    · by_cases h' : k1 = k'
      · subst h'
        simp [setValueS, lookupA, h]
      · simp [setValueS, lookupA, h, h', ih]

/-- If every key of `keys` (no duplicates) names a registered, writable,
non-read-only setting and appears in `incoming`, then the write loop
succeeds with no `NotImplemented` entries, keeps every key for read-back,
writes each key's incoming value and touches nothing else. -/
lemma writePhase_all_writable (incoming : List (String × Int)) :
    ∀ (keys : List String) (ss : List (String × SettingM)),
      keys.Nodup →
      (∀ k ∈ keys, ∃ s, lookupA ss k = some s ∧ s.hasSetter = true ∧ s.readonly = false) →
      (∀ k ∈ keys, ∃ v, lookupA incoming k = some v) →
      ∃ ss', writePhase incoming keys ss = .ok (ss', [], keys) ∧
        (∀ k, k ∉ keys → lookupA ss' k = lookupA ss k) ∧
        (∀ k ∈ keys, (lookupA ss' k).map (fun s => s.value) = lookupA incoming k) := by
  intro keys
  induction keys with
  | nil =>
    intro ss _ _ _
    exact ⟨ss, rfl, fun k _ => rfl, by simp⟩
  | cons key rest ih =>
    intro ss hnd hs hinc
    obtain ⟨s, hls, hset, hro⟩ := hs key (List.mem_cons_self _ _)
    obtain ⟨v, hlv⟩ := hinc key (List.mem_cons_self _ _)
    have hknr : key ∉ rest := (List.nodup_cons.mp hnd).1
    have hrest_nd : rest.Nodup := (List.nodup_cons.mp hnd).2
    have hs' : ∀ k ∈ rest,
        ∃ s, lookupA (setValueS ss key v) k = some s ∧ s.hasSetter = true ∧ s.readonly = false := by
      intro k hk
      have hne : k ≠ key := fun h => hknr (h ▸ hk)
      rw [lookupA_setValueS_ne ss key k v hne]
      exact hs k (List.mem_cons_of_mem _ hk)
    have hinc' : ∀ k ∈ rest, ∃ v, lookupA incoming k = some v :=
      fun k hk => hinc k (List.mem_cons_of_mem _ hk)
    obtain ⟨ss', heq, hout, hvals⟩ := ih (setValueS ss key v) hrest_nd hs' hinc'
    refine ⟨ss', ?_, ?_, ?_⟩
    · simp [writePhase, hls, hro, hlv, hset, heq]
    · intro k hk
      have h1 : k ≠ key ∧ k ∉ rest := by simpa [List.mem_cons, not_or] using hk
      rw [hout k h1.2, lookupA_setValueS_ne ss key k v h1.1]
    · intro k hk
      rcases List.mem_cons.mp hk with h | h
      · subst h
        rw [hout k hknr, lookupA_setValueS_self ss k v, hls, hlv]
        rfl
      · exact hvals k h

/-- `updateSettings` with `init=True`, unfolded. -/
lemma updateSettings_true (ss : List (String × SettingM)) (incoming : List (String × Int)) :
    updateSettings ss incoming true
      = if (ss.map Prod.fst).all (fun k => decide (k ∈ incoming.map Prod.fst)) then
          runPhases ss incoming
            ((ss.map Prod.fst).filter (fun k => decide (k ∈ incoming.map Prod.fst)))
        else
          .error (PyErr.missingKeys
            ((ss.map Prod.fst).filter (fun k => decide (k ∉ incoming.map Prod.fst)))) := rfl

/-! ## Theorems for the claims -/

/-- Claim C1 (corrected), counterexample: with a raising `_on_enable` hook,
`DataDevice.enable` re-raises the exception to the caller instead of
returning a success flag, and `Device.enable` on a previously-enabled
device leaves the enabled state `True`, not `False`. -/
theorem data_device_enable_propagates_error :
    (dataDeviceEnable (Except.error 7) ⟨none, false, []⟩).2 = Except.error 7 ∧
    (deviceEnable (Except.error 7) ⟨some true, false, []⟩).1.enabled = some true := by
  exact ⟨rfl, rfl⟩

/-- Claim C1 (amended): when the `_on_enable` hook raises, `Device.enable`
logs and swallows the error, leaves the whole state unchanged (so a
disabled device stays disabled) and returns `None` rather than a success
flag, while `DataDevice.enable` sets the enabled flag to `False` and
re-raises the exception to the caller. -/
theorem enable_on_hook_failure (e : Nat) (st : DevState) :
    deviceEnable (Except.error e) st = (st, none) ∧
    dataDeviceEnable (Except.error e) st
      = ({ st with enabled := some false }, Except.error e) := by
  exact ⟨rfl, rfl⟩

/-- Claim C2 (confirmed): over any finite sequence of `_fetch_data`
outcomes, the fetch loop enqueues, in FIFO order, a data payload for every
iteration that returns data and the raised error object itself for every
iteration that raises; and around any raising iteration the loop keeps
running, enqueuing the error at that iteration's position and then
processing the remaining iterations unchanged. -/
theorem fetch_loop_error_payloads (outs pre post : List FetchOutcome) (e : Nat) :
    fetchLoop outs = outs.filterMap payloadOf ∧
    fetchLoop (pre ++ FetchOutcome.raises e :: post)
      = fetchLoop pre ++ Payload.error e :: fetchLoop post := by
  refine ⟨fetchLoop_eq_filterMap outs, ?_⟩
  rw [fetchLoop_append]
  rfl

/-- Claim C5 (code bug), evaluation at the failing input: the base
`Device.update_settings` writes the value and returns the read-back
mapping, but `DataDevice.update_settings` discards that mapping (its body
has no return statement) and hands `None` back to the caller. -/
theorem data_device_update_settings_discards_result :
    updateSettings [("a", ⟨0, true, false⟩)] [("a", 5)] false
      = Except.ok ([("a", ⟨5, true, false⟩)], [("a", UpdateResult.value 5)]) ∧
    dataDeviceUpdateSettings [("a", ⟨0, true, false⟩)] [("a", 5)] false
      = Except.ok ([("a", ⟨5, true, false⟩)], none) := by
  exact ⟨rfl, rfl⟩

/-- Claim C6 (code bug), evaluation at the failing inputs: an update of a
recognised key whose setting has no setter makes the whole call raise
`NotImplementedError` (the `results[key] = NotImplemented` branch tests
the always-truthy bound method `.set` and is dead code); an unrecognised
key is silently omitted from the result rather than reported as
`NotImplemented` (it never enters `update_keys = my_keys & their_keys`);
a read-only key is indeed silently skipped, its setter never invoked —
its value is unchanged. -/
theorem update_settings_no_setter_raises :
    updateSettings [("a", ⟨0, false, false⟩)] [("a", 1)] false
      = Except.error PyErr.notImplementedError ∧
    updateSettings [("a", ⟨0, true, false⟩)] [("zzz", 1)] false
      = Except.ok ([("a", ⟨0, true, false⟩)], []) ∧
    updateSettings [("r", ⟨0, true, true⟩)] [("r", 9)] false
      = Except.ok ([("r", ⟨0, true, true⟩)], [("r", UpdateResult.value 0)]) := by
  exact ⟨rfl, rfl, rfl⟩

/-- Claim C7 (confirmed): on a device whose registered settings are
distinct, writable and not read-only, `update_settings(incoming,
init=True)` fails with an error listing exactly the missing registered
keys whenever the incoming keys are not a superset of the registered
keys, and when they are a superset it succeeds and applies every
registered key — afterwards each registered key's value is the incoming
value. -/
theorem update_settings_init_superset
    (ss : List (String × SettingM)) (incoming : List (String × Int))
    (hnd : (ss.map Prod.fst).Nodup)
    (hw : ∀ p ∈ ss, p.2.hasSetter = true ∧ p.2.readonly = false) :
    (¬ (∀ k ∈ ss.map Prod.fst, k ∈ incoming.map Prod.fst) →
      updateSettings ss incoming true
        = .error (PyErr.missingKeys
            ((ss.map Prod.fst).filter (fun k => decide (k ∉ incoming.map Prod.fst))))) ∧
    ((∀ k ∈ ss.map Prod.fst, k ∈ incoming.map Prod.fst) →
      ∃ ss' res, updateSettings ss incoming true = .ok (ss', res) ∧
        ∀ k ∈ ss.map Prod.fst,
          (lookupA ss' k).map (fun s => s.value) = lookupA incoming k) := by
  constructor
  · intro h
    have hall : ¬ ((ss.map Prod.fst).all
        (fun k => decide (k ∈ incoming.map Prod.fst)) = true) := by
      intro hc
      exact h (fun k hk => by simpa using List.all_eq_true.mp hc k hk)
    rw [updateSettings_true, if_neg hall]
  · intro h
    have hall : (ss.map Prod.fst).all
        (fun k => decide (k ∈ incoming.map Prod.fst)) = true :=
      List.all_eq_true.mpr (fun k hk => by simpa using h k hk)
    have hfilter : (ss.map Prod.fst).filter
        (fun k => decide (k ∈ incoming.map Prod.fst)) = ss.map Prod.fst :=
      List.filter_eq_self.mpr (fun k hk => by simpa using h k hk)
    have hsprop : ∀ k ∈ ss.map Prod.fst,
        ∃ s, lookupA ss k = some s ∧ s.hasSetter = true ∧ s.readonly = false := by
      intro k hk
      obtain ⟨s, hs⟩ := mem_keys_lookupA ss k hk
      have hmem := lookupA_mem ss k s hs
      exact ⟨s, hs, (hw _ hmem).1, (hw _ hmem).2⟩
    have hincprop : ∀ k ∈ ss.map Prod.fst, ∃ v, lookupA incoming k = some v :=
      fun k hk => mem_keys_lookupA incoming k (h k hk)
    obtain ⟨ss', heq, _hout, hvals⟩ :=
      writePhase_all_writable incoming (ss.map Prod.fst) ss hnd hsprop hincprop
    refine ⟨ss', readPhase (ss.map Prod.fst) ss', ?_, hvals⟩
    rw [updateSettings_true, if_pos hall, hfilter]
    simp [runPhases, heq]

/-- Witness for `update_settings_init_superset`: a device with the single
writable setting `a`; `{"b": 1}` is missing key `a` and fails listing it,
while `{"a": 7, "b": 1}` is a superset and the call applies `a := 7`. -/
theorem update_settings_init_superset_witness :
    updateSettings [("a", ⟨0, true, false⟩)] [("b", 1)] true
      = .error (PyErr.missingKeys ["a"]) ∧
    (∃ ss' res,
      updateSettings [("a", ⟨0, true, false⟩)] [("a", 7), ("b", 1)] true = .ok (ss', res) ∧
      ∀ k ∈ ([("a", (⟨0, true, false⟩ : SettingM))].map Prod.fst),
        (lookupA ss' k).map (fun s => s.value) = lookupA [("a", 7), ("b", 1)] k) := by
  constructor
  · have h := (update_settings_init_superset [("a", ⟨0, true, false⟩)] [("b", 1)]
      (by decide) (by decide)).1 (by decide)
    rw [h]
    rfl
  · exact (update_settings_init_superset [("a", ⟨0, true, false⟩)] [("a", 7), ("b", 1)]
      (by decide) (by decide)).2 (by decide)

/-- Claim C8 (corrected), counterexample: `DataDevice.disable` flips the
enabled flag to `False` *before* the teardown hook runs — its first
observable event is the flag assignment, and the whole trace is
flag, fetch-thread stop, hook, flag. -/
theorem data_device_disable_flips_flag_first :
    (dataDeviceDisable ⟨some true, false, []⟩).2
      = [DisEvent.setEnabledFalse, DisEvent.stopFetch,
         DisEvent.onDisable, DisEvent.setEnabledFalse] ∧
    (dataDeviceDisable ⟨some true, false, []⟩).2.head? = some DisEvent.setEnabledFalse := by
  decide

/-- Claim C8 (amended): `Device.disable` invokes the teardown hook first
and flips the flag afterwards; `DataDevice.disable` flips the flag to
`False` before stopping the fetch thread and running the hook (and the
base class sets it again afterwards).  In both classes the final state is
disabled from any starting state, and a second consecutive `disable()`
completes without error and leaves the state disabled both times. -/
theorem disable_order_and_idempotence (st : DevState) :
    deviceDisable st
      = ({ st with enabled := some false }, [DisEvent.onDisable, DisEvent.setEnabledFalse]) ∧
    dataDeviceDisable st
      = ({ st with enabled := some false },
         [DisEvent.setEnabledFalse, DisEvent.stopFetch,
          DisEvent.onDisable, DisEvent.setEnabledFalse]) ∧
    (deviceDisable (deviceDisable st).1).1.enabled = some false ∧
    (dataDeviceDisable (dataDeviceDisable st).1).1.enabled = some false := by
  exact ⟨rfl, rfl, rfl, rfl⟩

/-- Claim C9 (corrected), counterexample: the base `Device.make_safe`
(inherited by every device that does not override it) is `pass`: on an
enabled, actively-acquiring device it leaves `_acquiring` true instead of
forcing an abort; and `TemplateCamera.make_safe` on a *disabled* but
acquiring device is not a no-op — it aborts regardless of the lifecycle
state. -/
theorem device_make_safe_no_abort :
    deviceMakeSafe ⟨some true, true, []⟩ = ⟨some true, true, []⟩ ∧
    (deviceMakeSafe ⟨some true, true, []⟩).acquiring = true ∧
    templateMakeSafe ⟨some false, true, []⟩ ≠ ⟨some false, true, []⟩ := by
  decide

/-- Claim C9 (amended): `Device.make_safe` is a no-op in every state;
`TemplateCamera.make_safe` clears the `_acquiring` flag whenever it is
set, regardless of the enabled state, and neither implementation ever
changes the lifecycle (`enabled`) state or the settings. -/
theorem make_safe_state_change (st : DevState) :
    deviceMakeSafe st = st ∧
    templateMakeSafe st = { st with acquiring := false } := by
  refine ⟨rfl, ?_⟩
  cases st with
  | mk e a s =>
    by_cases h : a <;> simp [templateMakeSafe, h]

/-- Claim C3 (confirmed): a dequeued item whose destination client is no
longer in `_liveClients` is dropped with no delivery attempt and no state
change (in particular `_liveClients` is not re-grown); a transport-level
client-unreachable failure during delivery removes that client from both
`_clientStack` and `_liveClients`; and the dispatch loop processes every
queued item — it never terminates early or propagates an error. -/
theorem dispatch_drop_and_prune (st : CState) (c : Nat) (out : SendOutcome)
    (items : List (Nat × SendOutcome)) :
    (c ∉ st.liveClients → dispatchStep st c out = (st, false)) ∧
    (c ∈ st.liveClients → (out = SendOutcome.connClosed ∨ out = SendOutcome.commError) →
      dispatchStep st c out = (pruneClient st c, true)) ∧
    (dispatchLoop st items).2.length = items.length := by
  refine ⟨?_, ?_, ?_⟩
  · intro h
    simp [dispatchStep, h]
  · intro hc hout
    rcases hout with h | h <;> subst h <;> simp [dispatchStep, sendData, hc]
  · induction items generalizing st with
    | nil => rfl
    | cons it rest ih =>
      obtain ⟨c', out'⟩ := it
      simp [dispatchLoop, ih]

/-- Witness for `dispatch_drop_and_prune`: client 3 is not live, so its
item is dropped with the state untouched; client 1 is live and
unreachable, so it is removed from both the stack and the live set. -/
theorem dispatch_drop_and_prune_witness :
    dispatchStep ⟨[1, 2], {1, 2}⟩ 3 SendOutcome.success = (⟨[1, 2], {1, 2}⟩, false) ∧
    dispatchStep ⟨[1, 2], {1, 2}⟩ 1 SendOutcome.connClosed = (⟨[2], {2}⟩, true) := by
  constructor
  · exact (dispatch_drop_and_prune ⟨[1, 2], {1, 2}⟩ 3 SendOutcome.success []).1 (by decide)
  · have h := (dispatch_drop_and_prune ⟨[1, 2], {1, 2}⟩ 1 SendOutcome.connClosed []).2.1
      (by decide) (Or.inl rfl)
    rw [h]
    decide

/-- Claim C4 (confirmed): a settings mutation through
`DataDevice.set_setting` while `_acquiring` performs exactly one abort,
then the setter, then exactly one `_on_enable` re-run, in that order
(trace `[abort, setter, onEnable]`); when not acquiring, the setter is
applied directly with no abort and no re-enable (trace `[setter]`). -/
theorem set_setting_keep_acquiring (key : String) (v : Int)
    (hook : DevState → DevState) (st : DevState) :
    (st.acquiring = true →
      dataDeviceSetSetting key v hook st
        = (hook (setSettingOp key v (abortOp st)),
           [AcqEvent.abortEv, AcqEvent.setterEv, AcqEvent.onEnableEv])) ∧
    (st.acquiring = false →
      dataDeviceSetSetting key v hook st = (setSettingOp key v st, [AcqEvent.setterEv])) := by
  constructor
  · intro h
    simp [dataDeviceSetSetting, keepAcquiring, h]
  · intro h
    simp [dataDeviceSetSetting, keepAcquiring, h]

/-- Witness for `set_setting_keep_acquiring`: on an acquiring device the
mutation aborts, writes the value, and re-runs the (identity) enable
hook, ending not-acquiring; on a non-acquiring device it only writes. -/
theorem set_setting_keep_acquiring_witness :
    dataDeviceSetSetting "a" 5 id ⟨some true, true, [("a", ⟨0, true, false⟩)]⟩
      = (⟨some true, false, [("a", ⟨5, true, false⟩)]⟩,
         [AcqEvent.abortEv, AcqEvent.setterEv, AcqEvent.onEnableEv]) ∧
    dataDeviceSetSetting "a" 5 id ⟨some true, false, [("a", ⟨0, true, false⟩)]⟩
      = (⟨some true, false, [("a", ⟨5, true, false⟩)]⟩, [AcqEvent.setterEv]) := by
  constructor
  · have h := (set_setting_keep_acquiring "a" 5 id
      ⟨some true, true, [("a", ⟨0, true, false⟩)]⟩).1 rfl
    rw [h]
    decide
  · have h := (set_setting_keep_acquiring "a" 5 id
      ⟨some true, false, [("a", ⟨0, true, false⟩)]⟩).2 rfl
    rw [h]
    decide

/-- Claim C10 (confirmed): starting from the freshly-constructed state,
after every sequence of completed client-stack mutations (pushes and pops
through the `_client` setter, dead-client prunes from `_send_data`; a pop
that raises on an empty stack mutates nothing), `_liveClients` equals
exactly the set of handles currently on `_clientStack`. -/
theorem live_clients_matches_client_stack (ops : List COp) :
    clientInv (runOps ops) := by
  have hfilter : ∀ (l : List Nat) (c : Nat),
      (l.filter (fun x => decide (x ≠ c))).toFinset = l.toFinset.erase c := by
    intro l c
    ext x
    simp [List.mem_filter, Finset.mem_erase, and_comm]
  have hstep : ∀ (st : CState) (op : COp),
      clientInv st → clientInv ((applyOp st op).getD st) := by
    intro st op hinv
    cases op with
    | push c => simp [applyOp, clientInv]
    | pop =>
      cases h : st.clientStack with
      | nil => simpa [applyOp, h] using hinv
      | cons a l => simp [applyOp, h, clientInv]
    | prune c =>
      simp only [applyOp, Option.getD_some, clientInv, pruneClient, hfilter]
      rw [hinv]
  have haux : ∀ (ops : List COp) (st : CState), clientInv st →
      clientInv (ops.foldl (fun st op => (applyOp st op).getD st) st) := by
    intro ops
    induction ops with
    | nil => intro st h; exact h
    | cons op rest ih =>
      intro st h
      exact ih _ (hstep st op h)
  exact haux ops ⟨[], ∅⟩ (by simp [clientInv])

end Microscope
